import Mathlib

/-!
Verification of the dedicated-thread ptrace command proxy
(`program/server/ptrace.go`).

The Go source is a small core: `ptraceRun` runs closures received on a
request channel `fc` on one pinned OS thread, sending each closure's
returned error back on a response channel `ec`; a family of `Server`
methods each wraps exactly one OS tracing primitive in such a closure.

Shallow embedding conventions:
- a Go `error` value is `Option GoError` (`none` = `nil`);
- the OS primitives consumed by the core (`os.StartProcess`,
  `syscall.PtraceCont`, `syscall.PtracePeekText`, ...) are external: they
  are modelled by an oracle structure `OS` whose fields give, per argument
  tuple, the results the primitive reports;
- each `Server` method's closure body is translated literally; a method's
  return value is the value the closure returns (sent back over `ec`),
  and alongside it we record the list of primitive invocations the closure
  performs, so that "invoked exactly once, verbatim" is a provable
  statement;
- the executor loop `for f := range fc { ec <- f() }` is modelled as a
  function on the finite list of closures accepted before the channel is
  closed, threading an arbitrary state type `S` through the closures
  (Go closures mutate their captured environment).
-/

/-- Process id, as in the Go `pid int` parameters. -/
abbrev Pid := Int

/-- Opaque handle standing for `*os.Process` returned by `os.StartProcess`. -/
abbrev Proc := Nat

/-- Opaque contents of a `syscall.PtraceRegs` register buffer. -/
abbrev Regs := List Nat

/-- Opaque `syscall.WaitStatus` value filled in by `syscall.Wait4`. -/
abbrev WaitStatus := Nat

/-- Opaque token standing for the `*os.ProcAttr` passed through to
`os.StartProcess`. The core never inspects it. -/
abbrev ProcAttr := Nat

/-- A Go `error` value produced inside the core. `os` is an arbitrary error
reported by an underlying OS primitive (kept opaque); `peekShort got want`
is the value of
`fmt.Errorf("ptracePeek: peeked %d bytes, want %d", n, len(out))`
and `pokeShort got want` the value of
`fmt.Errorf("ptracePoke: poked %d bytes, want %d", n, len(data))`,
each carrying the actual and requested byte counts. -/
inductive GoError where
  | os (tag : Nat)
  | peekShort (got want : Nat)
  | pokeShort (got want : Nat)
deriving DecidableEq, Repr

/-- Constant `syscall.WALL`: the Linux wait-all-threads flag passed by `Server.wait`
to `syscall.Wait4`; observes status changes in any thread of the tracee's
thread group, not only direct children. -/
def WALL : Int := 0x40000000

/-- One invocation of an underlying OS primitive, with the arguments it was
given. Each `Server` method's closure records the invocations it performs. -/
inductive Event where
  | startProcess (name : String) (argv : List String) (attr : ProcAttr)
  | ptraceCont (pid : Pid) (signal : Int)
  | ptraceGetRegs (pid : Pid)
  | ptracePeekText (pid : Pid) (addr : Nat) (len : Nat)
  | ptracePokeText (pid : Pid) (addr : Nat) (len : Nat)
  | ptraceSetOptions (pid : Pid) (options : Int)
  | ptraceSetRegs (pid : Pid) (regs : Regs)
  | ptraceSingleStep (pid : Pid)
  | wait4 (pid : Pid) (options : Int)
deriving DecidableEq, Repr

/-- Oracle for the external OS primitives: for each primitive, the results
it reports for a given argument tuple. `ptracePeekTextRes pid addr len`
gives the pair `(n, err)` returned by `syscall.PtracePeekText` for a
destination buffer of length `len` (the bytes themselves are written into
the caller's buffer and not inspected by the core); similarly for the
others. -/
structure OS where
  startProcessRes : String → List String → ProcAttr → Proc × Option GoError
  ptraceContRes : Pid → Int → Option GoError
  ptraceGetRegsRes : Pid → Regs × Option GoError
  ptracePeekTextRes : Pid → Nat → Nat → Nat × Option GoError
  ptracePokeTextRes : Pid → Nat → List Nat → Nat × Option GoError
  ptraceSetOptionsRes : Pid → Int → Option GoError
  ptraceSetRegsRes : Pid → Regs → Option GoError
  ptraceSingleStepRes : Pid → Option GoError
  wait4Res : Pid → Int → Pid × WaitStatus × Option GoError

/-- The executor loop of `ptraceRun`:
`for f := range fc { ec <- f() }`.
The argument list is the sequence of closures accepted from `fc` before the
channel was closed; the state `S` is the closures' mutable captured
environment, threaded left to right. Returns the sequence of results sent
on `ec`, in order, and the final state. -/
def ptraceRunLoop {S : Type} (fs : List (S → Option GoError × S)) (s : S) :
    List (Option GoError) × S :=
  match fs with
  | [] => ([], s)
  | f :: rest =>
    let r := f s
    let rec' := ptraceRunLoop rest r.2
    (r.1 :: rec'.1, rec'.2)

/-- State of the closures' environment after the first `i` closures of the
stream have run. -/
def stateAfter {S : Type} (fs : List (S → Option GoError × S)) (s : S) : S :=
  match fs with
  | [] => s
  | f :: rest => stateAfter rest (f s).2

/-- Outcome of a run of `ptraceRun`: either the startup `panic`, or normal
return with the list of results sent on `ec` and the final closure state. -/
inductive RunOutcome (S : Type) where
  | panicked (msg : String)
  | finished (results : List (Option GoError)) (final : S)
deriving DecidableEq

/-- Function `ptraceRun(fc, ec)`: panics at startup when
`cap(fc) != 0 || cap(ec) != 0`, otherwise locks the OS thread and runs the
loop until `fc` is closed. `capFc` and `capEc` are the capacities of the
two channels; `fs` is the stream of closures accepted from `fc`. The
`rt.LockOSThread()` call is a runtime-scheduler effect with no observable
value and is not represented. -/
def ptraceRun {S : Type} (capFc capEc : Nat) (fs : List (S → Option GoError × S))
    (s : S) : RunOutcome S :=
  if capFc ≠ 0 ∨ capEc ≠ 0 then
    RunOutcome.panicked ("ptraceRun was given unbuffered channels")
  else
    let r := ptraceRunLoop fs s
    RunOutcome.finished r.1 r.2

namespace Server

/-- Method `Server.startProcess`: the closure calls
`os.StartProcess(name, argv, attr)`, storing the handle in the captured
`proc` and returning the launch error; the method returns
`(proc, <-s.ec)`. Result: `((proc, err), invocations)`. -/
def startProcess (os : OS) (name : String) (argv : List String) (attr : ProcAttr) :
    (Proc × Option GoError) × List Event :=
  let r := os.startProcessRes name argv attr
  ((r.1, r.2), [Event.startProcess name argv attr])

/-- Method `Server.ptraceCont`: the closure returns
`syscall.PtraceCont(pid, signal)`; the method returns `<-s.ec`. -/
def ptraceCont (os : OS) (pid : Pid) (signal : Int) :
    Option GoError × List Event :=
  (os.ptraceContRes pid signal, [Event.ptraceCont pid signal])

/-- Method `Server.ptraceGetRegs`: the closure returns
`syscall.PtraceGetRegs(pid, regsout)`, the primitive filling the caller's
`regsout` buffer. Result: `((regsout contents, err), invocations)`. -/
def ptraceGetRegs (os : OS) (pid : Pid) :
    (Regs × Option GoError) × List Event :=
  let r := os.ptraceGetRegsRes pid
  ((r.1, r.2), [Event.ptraceGetRegs pid])

/-- Method `Server.ptracePeek`: the closure calls
`syscall.PtracePeekText(pid, addr, out)`; a non-nil primitive error is
returned as-is; otherwise, if the transferred count `n` differs from
`len(out)`, the closure returns
`fmt.Errorf("ptracePeek: peeked %d bytes, want %d", n, len(out))`
(modelled as `GoError.peekShort n out.length`); otherwise nil. -/
def ptracePeek (os : OS) (pid : Pid) (addr : Nat) (out : List Nat) :
    Option GoError × List Event :=
  let r := os.ptracePeekTextRes pid addr out.length
  let res :=
    match r.2 with
    | some err => some err
    | none =>
      if r.1 ≠ out.length then some (GoError.peekShort r.1 out.length)
      else none
  (res, [Event.ptracePeekText pid addr out.length])

/-- Method `Server.ptracePoke`: the closure calls
`syscall.PtracePokeText(pid, addr, data)`; a non-nil primitive error is
returned as-is; otherwise, if the transferred count `n` differs from
`len(data)`, the closure returns
`fmt.Errorf("ptracePoke: poked %d bytes, want %d", n, len(data))`
(modelled as `GoError.pokeShort n data.length`); otherwise nil. -/
def ptracePoke (os : OS) (pid : Pid) (addr : Nat) (data : List Nat) :
    Option GoError × List Event :=
  let r := os.ptracePokeTextRes pid addr data
  let res :=
    match r.2 with
    | some err => some err
    | none =>
      if r.1 ≠ data.length then some (GoError.pokeShort r.1 data.length)
      else none
  (res, [Event.ptracePokeText pid addr data.length])

/-- Method `Server.ptraceSetOptions`: the closure returns
`syscall.PtraceSetOptions(pid, options)`. -/
def ptraceSetOptions (os : OS) (pid : Pid) (options : Int) :
    Option GoError × List Event :=
  (os.ptraceSetOptionsRes pid options, [Event.ptraceSetOptions pid options])

/-- Method `Server.ptraceSetRegs`: the closure returns
`syscall.PtraceSetRegs(pid, regs)`. -/
def ptraceSetRegs (os : OS) (pid : Pid) (regs : Regs) :
    Option GoError × List Event :=
  (os.ptraceSetRegsRes pid regs, [Event.ptraceSetRegs pid regs])

/-- Method `Server.ptraceSingleStep`: the closure returns
`syscall.PtraceSingleStep(pid)`. -/
def ptraceSingleStep (os : OS) (pid : Pid) :
    Option GoError × List Event :=
  (os.ptraceSingleStepRes pid, [Event.ptraceSingleStep pid])

/-- Method `Server.wait`: the closure calls
`syscall.Wait4(pid, &status, syscall.WALL, nil)`, storing the changed pid
in `wpid` and the status in `status`; the method returns
`(wpid, status, <-s.ec)`. -/
def wait (os : OS) (pid : Pid) :
    (Pid × WaitStatus × Option GoError) × List Event :=
  let r := os.wait4Res pid WALL
  ((r.1, r.2.1, r.2.2), [Event.wait4 pid WALL])

end Server

/-- Concrete oracle for exercising the theorems: the peek primitive always
transfers 3 bytes and the poke primitive 2 bytes, neither reporting an OS
error; every other primitive succeeds. -/
def osShort : OS where
  startProcessRes := fun _ _ _ => (7, none)
  ptraceContRes := fun _ _ => none
  ptraceGetRegsRes := fun _ => ([1, 2], none)
  ptracePeekTextRes := fun _ _ _ => (3, none)
  ptracePokeTextRes := fun _ _ _ => (2, none)
  ptraceSetOptionsRes := fun _ _ => none
  ptraceSetRegsRes := fun _ _ => none
  ptraceSingleStepRes := fun _ => none
  wait4Res := fun pid _ => (pid, 1407, none)

/-- Concrete oracle whose peek and poke primitives report an OS error after
a partial transfer. -/
def osFail : OS where
  startProcessRes := fun _ _ _ => (0, some (GoError.os 1))
  ptraceContRes := fun _ _ => some (GoError.os 3)
  ptraceGetRegsRes := fun _ => ([], some (GoError.os 5))
  ptracePeekTextRes := fun _ _ _ => (1, some (GoError.os 13))
  ptracePokeTextRes := fun _ _ _ => (0, some (GoError.os 14))
  ptraceSetOptionsRes := fun _ _ => some (GoError.os 22)
  ptraceSetRegsRes := fun _ _ => some (GoError.os 3)
  ptraceSingleStepRes := fun _ => some (GoError.os 3)
  wait4Res := fun _ _ => (-1, 0, some (GoError.os 10))

/-- Concrete two-element closure stream over state `Nat`, for exercising
the executor-loop theorems. -/
def fsDemo : List (Nat → Option GoError × Nat) :=
  [fun s => (none, s + 1), fun s => (some (GoError.os s), s * 2)]

/-- Helper: the executor loop emits as many results as it consumed
closures. -/
theorem ptraceRunLoop_length {S : Type} (fs : List (S → Option GoError × S))
    (s : S) : (ptraceRunLoop fs s).1.length = fs.length := by
  induction fs generalizing s with
  | nil => rfl
  | cons f rest ih => simp [ptraceRunLoop, ih]

/-- C3: `ptraceRun` panics at startup iff at least one of its two channels
has nonzero capacity; with both capacities zero it proceeds to its
execution loop without panicking. -/
theorem ptraceRun_failfast_iff_buffered {S : Type}
    (capFc capEc : Nat) (fs : List (S → Option GoError × S)) (s : S) :
    ((∃ msg, ptraceRun capFc capEc fs s = RunOutcome.panicked msg) ↔
      (0 < capFc ∨ 0 < capEc)) ∧
    ptraceRun 0 0 fs s =
      RunOutcome.finished (ptraceRunLoop fs s).1 (ptraceRunLoop fs s).2 := by
  refine ⟨⟨?_, ?_⟩, by simp [ptraceRun]⟩
  · rintro ⟨msg, hmsg⟩
    by_contra hc
    push_neg at hc
    have h1 : capFc = 0 := by omega
    have h2 : capEc = 0 := by omega
    subst h1; subst h2
    simp [ptraceRun] at hmsg
  · intro h
    refine ⟨("ptraceRun was given unbuffered channels"), ?_⟩
    rw [ptraceRun, if_pos (by omega : capFc ≠ 0 ∨ capEc ≠ 0)]

/-- C4: the executor loop produces exactly one result per consumed
operation and in consumption order: result `i` is precisely the value
returned by closure `i` when run in the state the closures `0..i-1` left
behind. -/
theorem ptraceRunLoop_one_result_each {S : Type}
    (fs : List (S → Option GoError × S)) (s : S) :
    (ptraceRunLoop fs s).1.length = fs.length ∧
    ∀ i, (hi : i < fs.length) →
      (ptraceRunLoop fs s).1[i]? =
        some ((fs.get ⟨i, hi⟩) (stateAfter (List.take i fs) s)).1 := by
  refine ⟨ptraceRunLoop_length fs s, ?_⟩
  induction fs generalizing s with
  | nil => intro i hi; exact absurd hi (by simp)
  | cons f rest ih =>
    intro i hi
    cases i with
    | zero => simp [ptraceRunLoop, stateAfter]
    | succ j =>
      have hj : j < rest.length := by simpa using hi
      have hrec := ih (f s).2 j hj
      simpa [ptraceRunLoop, stateAfter] using hrec

/-- Witness for the C4 theorem on the concrete stream `fsDemo` at index 1. -/
theorem ptraceRunLoop_one_result_each_w :
    (ptraceRunLoop fsDemo 0).1[1]? =
      some ((fsDemo.get ⟨1, by decide⟩) (stateAfter (List.take 1 fsDemo) 0)).1 :=
  (ptraceRunLoop_one_result_each fsDemo 0).2 1 (by decide)

/-- C9: with unbuffered channels, once the request channel is closed the
executor returns normally, having produced a result for every operation it
accepted before the close; on any finite request stream it is a total,
terminating function. -/
theorem ptraceRun_drains_then_returns {S : Type}
    (fs : List (S → Option GoError × S)) (s : S) :
    ∃ results final, ptraceRun 0 0 fs s = RunOutcome.finished results final ∧
      results.length = fs.length :=
  ⟨(ptraceRunLoop fs s).1, (ptraceRunLoop fs s).2, by simp [ptraceRun],
    ptraceRunLoop_length fs s⟩

/-- C5: when the peek primitive reports success, a transfer of fewer bytes
than the output buffer's length makes `ptracePeek` return the error carrying
both the actual and the requested count; it never reports success on a
short transfer; a full transfer yields success. -/
theorem ptracePeek_short_transfer_is_error (os : OS) (pid : Pid) (addr : Nat)
    (out : List Nat) (n : Nat)
    (h : os.ptracePeekTextRes pid addr out.length = (n, none)) :
    (n < out.length →
      (Server.ptracePeek os pid addr out).1 =
        some (GoError.peekShort n out.length)) ∧
    ((Server.ptracePeek os pid addr out).1 = none → n = out.length) ∧
    (n = out.length → (Server.ptracePeek os pid addr out).1 = none) := by
  refine ⟨?_, ?_, ?_⟩
  · intro hlt
    simp [Server.ptracePeek, h, Nat.ne_of_lt hlt]
  · intro hnone
    by_contra hne
    simp [Server.ptracePeek, h, hne] at hnone
  · intro heq
    simp [Server.ptracePeek, h, heq]

/-- Witness for the C5 theorem: `osShort` transfers 3 of 8 requested bytes. -/
theorem ptracePeek_short_transfer_is_error_w :
    (Server.ptracePeek osShort 1 100 [0, 0, 0, 0, 0, 0, 0, 0]).1 =
      some (GoError.peekShort 3 8) :=
  (ptracePeek_short_transfer_is_error osShort 1 100 [0, 0, 0, 0, 0, 0, 0, 0] 3
    (by rfl)).1 (by decide)

/-- C6: when the poke primitive reports success, a transfer of fewer bytes
than the data buffer's length makes `ptracePoke` return the error carrying
both the actual and the requested count; it never reports success on a
short transfer; a full transfer yields success. -/
theorem ptracePoke_short_transfer_is_error (os : OS) (pid : Pid) (addr : Nat)
    (data : List Nat) (n : Nat)
    (h : os.ptracePokeTextRes pid addr data = (n, none)) :
    (n < data.length →
      (Server.ptracePoke os pid addr data).1 =
        some (GoError.pokeShort n data.length)) ∧
    ((Server.ptracePoke os pid addr data).1 = none → n = data.length) ∧
    (n = data.length → (Server.ptracePoke os pid addr data).1 = none) := by
  refine ⟨?_, ?_, ?_⟩
  · intro hlt
    simp [Server.ptracePoke, h, Nat.ne_of_lt hlt]
  · intro hnone
    by_contra hne
    simp [Server.ptracePoke, h, hne] at hnone
  · intro heq
    simp [Server.ptracePoke, h, heq]

/-- Witness for the C6 theorem: `osShort` transfers 2 of 4 provided bytes. -/
theorem ptracePoke_short_transfer_is_error_w :
    (Server.ptracePoke osShort 1 100 [222, 173, 190, 239]).1 =
      some (GoError.pokeShort 2 4) :=
  (ptracePoke_short_transfer_is_error osShort 1 100 [222, 173, 190, 239] 2
    (by rfl)).1 (by decide)

/-- C10: when the peek or poke primitive reports a non-nil error, that
error is returned to the caller as-is and the partial-transfer check is not
applied, whatever count the primitive transferred before failing. -/
theorem ptracePeekPoke_os_error_as_is (os : OS) (pid : Pid) (addr : Nat)
    (out data : List Nat) (n m : Nat) (e1 e2 : GoError)
    (hpeek : os.ptracePeekTextRes pid addr out.length = (n, some e1))
    (hpoke : os.ptracePokeTextRes pid addr data = (m, some e2)) :
    (Server.ptracePeek os pid addr out).1 = some e1 ∧
    (Server.ptracePoke os pid addr data).1 = some e2 := by
  constructor
  · simp [Server.ptracePeek, hpeek]
  · simp [Server.ptracePoke, hpoke]

/-- Witness for the C10 theorem: `osFail` fails peek after transferring
1 of 8 bytes and poke after 0 of 4; each OS error comes back unchanged. -/
theorem ptracePeekPoke_os_error_as_is_w :
    (Server.ptracePeek osFail 1 100 [0, 0, 0, 0, 0, 0, 0, 0]).1 =
      some (GoError.os 13) ∧
    (Server.ptracePoke osFail 1 100 [222, 173, 190, 239]).1 =
      some (GoError.os 14) :=
  ptracePeekPoke_os_error_as_is osFail 1 100 [0, 0, 0, 0, 0, 0, 0, 0]
    [222, 173, 190, 239] 1 0 (GoError.os 13) (GoError.os 14) (by rfl) (by rfl)

/-- C7: each of the six plain wrappers invokes its OS primitive exactly
once and returns the primitive's error unmodified; `startProcess` also
returns the process handle the launch primitive produced. -/
theorem wrappers_invoke_once_and_pass_through (os : OS) (name : String)
    (argv : List String) (attr : ProcAttr) (pid : Pid)
    (signal options : Int) (regs : Regs) :
    Server.startProcess os name argv attr =
      (((os.startProcessRes name argv attr).1,
        (os.startProcessRes name argv attr).2),
        [Event.startProcess name argv attr]) ∧
    Server.ptraceCont os pid signal =
      (os.ptraceContRes pid signal, [Event.ptraceCont pid signal]) ∧
    Server.ptraceGetRegs os pid =
      (((os.ptraceGetRegsRes pid).1, (os.ptraceGetRegsRes pid).2),
        [Event.ptraceGetRegs pid]) ∧
    Server.ptraceSetOptions os pid options =
      (os.ptraceSetOptionsRes pid options,
        [Event.ptraceSetOptions pid options]) ∧
    Server.ptraceSetRegs os pid regs =
      (os.ptraceSetRegsRes pid regs, [Event.ptraceSetRegs pid regs]) ∧
    Server.ptraceSingleStep os pid =
      (os.ptraceSingleStepRes pid, [Event.ptraceSingleStep pid]) :=
  ⟨rfl, rfl, rfl, rfl, rfl, rfl⟩

/-- C8: `wait` invokes the OS wait primitive exactly once, with the
wait-all-threads flag `WALL` (value `0x40000000`), and returns the changed
pid, the reported status and the wait error verbatim. -/
theorem wait_uses_WALL_and_passes_through (os : OS) (pid : Pid) :
    Server.wait os pid =
      (((os.wait4Res pid WALL).1, (os.wait4Res pid WALL).2.1,
        (os.wait4Res pid WALL).2.2), [Event.wait4 pid WALL]) ∧
    WALL = 1073741824 :=
  ⟨rfl, rfl⟩
